import Mathlib

set_option autoImplicit false

namespace AIOps

/-!
Shallow embedding of the execution and verification pipeline of the
AI Operations Assistant (src/agents/executor.py, src/agents/verifier.py,
src/tools/__init__.py).

Modelling conventions:
* Python dicts with a fixed key set are Lean structures; a key that may be
  absent or bound to `None` becomes an `Option` field.
* A step's `parameters` dict is represented by the list of its keys: the
  embedded code (`_infer_function`) only ever tests key membership on it.
  The cleaned parameters passed to a handler are constant across the retry
  loop, so a handler invocation is modelled as a function from the attempt
  index to an outcome (return a payload, or raise a fault with a given
  stringified text).
* Handler payloads are abstracted to the one field the executor inspects:
  whether the payload is a dict carrying a truthy `error` entry.
* `step_id` values are rendered into strings by the verifier, so they are
  modelled as strings.
-/

/-- One declared function of a tool in the capability registry:
its declared parameter names and whether a truthy handler is bound
(`function_info.get("handler")`). -/
structure FuncInfo where
  params : List String
  hasHandler : Bool
deriving DecidableEq, Repr

/-- A registry entry: mapping from function name to its info
(`TOOL_INFO["functions"]`). -/
structure ToolInfo where
  functions : List (String × FuncInfo)
deriving DecidableEq, Repr

/-- The capability registry: tool name → tool info (a Python dict;
lookup is first-match in the association list). -/
abbrev Registry := List (String × ToolInfo)

/-- A plan step (`step` dict). `paramKeys` is the key set of the
`parameters` dict; only key membership is inspected by the embedded code. -/
structure Step where
  step_id : String
  tool : String
  function : String
  action : String
  paramKeys : List String
deriving DecidableEq, Repr

/-- A plan (`{"task": ..., "steps": [...]}`). -/
structure Plan where
  task : String
  steps : List Step
deriving DecidableEq, Repr

/-- A handler's returned payload, abstracted to what the executor inspects:
`isinstance(response, dict) and response.get("error")`. `pdict e` is a dict
whose `error` entry is `e` (`none` = key absent or `None`); `pother` is any
non-dict return value. -/
inductive Payload where
  | pdict (errorField : Option String) : Payload
  | pother : Payload
deriving DecidableEq, Repr

/-- Outcome of one handler invocation: either the call raises a fault whose
stringified text is `msg`, or it returns a payload. -/
inductive HandlerOutcome where
  | raises (msg : String) : HandlerOutcome
  | returns (p : Payload) : HandlerOutcome

/-- The per-step result dict built by `_execute_step`. -/
structure StepResult where
  step_id : String
  tool : String
  function : String
  action : String
  success : Bool
  data : Option Payload
  error : Option String
  attempts : Nat
deriving DecidableEq, Repr

/-- Truthiness of `response.get("error")` for a returned payload:
a dict whose `error` entry is a non-empty string. -/
def isSoftError : Payload → Bool
  | .pdict (some e) => e ≠ ""
  | .pdict none => false
  | .pother => false

/-- The `error` entry of a returned payload (`response.get("error")`). -/
def payloadError : Payload → Option String
  | .pdict e => e
  | .pother => none

/-- The result dict as initialised at the top of `_execute_step` (success
false, no data, no error, zero attempts; `tool` already lower-cased). -/
def baseResult (step : Step) (toolName : String) : StepResult :=
  { step_id := step.step_id
    tool := toolName
    function := step.function
    action := step.action
    success := false
    data := none
    error := none
    attempts := 0 }

/-- Python's `str.lower()` on the tool and action names (ASCII content),
written as a character-wise map over the string's character list. -/
def pyLower (s : String) : String := ⟨s.data.map Char.toLower⟩

/-- Python's `str.upper()` (used for the per-tool section headers of the
fallback formatting), written as a character-wise map. -/
def pyUpper (s : String) : String := ⟨s.data.map Char.toUpper⟩

/-- Substring test on character lists (Python's `needle in hay`). -/
def listSub (needle : List Char) : List Char → Bool
  | [] => needle.isEmpty
  | c :: rest => needle.isPrefixOf (c :: rest) || listSub needle rest

/-- Substring test on strings (Python's `needle in hay`). -/
def strSub (needle hay : String) : Bool :=
  listSub needle.data hay.data

/-- `_infer_function`: per-tool heuristic resolution of the function name
from the step's parameter keys and lower-cased action text. -/
def inferFunction (toolName : String) (step : Step) : Option String :=
  let action := pyLower step.action
  if toolName = "github" then
    if "owner" ∈ step.paramKeys ∧ "repo" ∈ step.paramKeys then
      some "get_repository_details"
    else if "username" ∈ step.paramKeys then
      some "get_user_repos"
    else
      some "search_repositories"
  else if toolName = "weather" then
    if "lat" ∈ step.paramKeys ∧ "lon" ∈ step.paramKeys then
      some "get_weather_by_coordinates"
    else
      some "get_current_weather"
  else if toolName = "news" then
    if strSub "headline" action || strSub "top" action then
      some "get_top_headlines"
    else
      some "search_news"
  else
    none

/-- Function resolution in `_execute_step`: keep the requested function if it
is declared for the tool, otherwise fall back to `_infer_function`. -/
def resolveFunction (functions : List (String × FuncInfo)) (toolName : String)
    (step : Step) : Option String :=
  if (List.lookup step.function functions).isSome then some step.function
  else inferFunction toolName step

/-- The retry loop of `_execute_step` (`for attempt in range(max_retries)`),
carried by the number `fuel` of iterations still to run
(`fuel = max_retries - attempt`, so the loop guard `attempt < max_retries`
is `0 < fuel` and the last-attempt test `attempt < max_retries - 1` is
`0 < fuel - 1`, i.e. a non-zero tail). Each entered iteration sets
`attempts := attempt + 1`; a soft error (truthy `error` entry) retries unless
this is the last attempt, a raised fault retries or, on the last attempt,
records the fault text and lets the loop run out; any other return is a
success recorded immediately. -/
def attemptLoop (b : Nat → HandlerOutcome) :
    (fuel attempt : Nat) → StepResult → StepResult
  | 0, _, res => res
  | f + 1, attempt, res =>
    let res1 := { res with attempts := attempt + 1 }
    match b attempt with
    | .returns p =>
      if isSoftError p then
        if 0 < f then
          attemptLoop b f (attempt + 1) res1
        else
          { res1 with error := payloadError p }
      else
        { res1 with success := true, data := some p }
    | .raises msg =>
      if 0 < f then
        attemptLoop b f (attempt + 1) res1
      else
        attemptLoop b f (attempt + 1) { res1 with error := some msg }

/-- `_execute_step`: resolve the tool (lower-cased name) in the registry,
resolve the function (with inference fallback), check the handler, then run
the retry loop. `b` gives the outcome of each handler invocation. -/
def executeStep (reg : Registry) (maxRetries : Nat) (b : Nat → HandlerOutcome)
    (step : Step) : StepResult :=
  let toolName := pyLower step.tool
  let res := baseResult step toolName
  match List.lookup toolName reg with
  | none => { res with error := some ("Unknown tool: " ++ toolName) }
  | some ti =>
    match resolveFunction ti.functions toolName step with
    | none =>
      { res with
        error := some ("Unknown function 'None' for tool '" ++ toolName ++ "'") }
    | some fname =>
      match List.lookup fname ti.functions with
      | some fi =>
        if fi.hasHandler then
          attemptLoop b maxRetries 0 res
        else
          { res with error := some ("No handler found for function: " ++ fname) }
      | none =>
        { res with error := some ("No handler found for function: " ++ fname) }

/-- Resolution succeeds for a step: the tool is registered, a function name is
resolved (directly or by inference) and its entry binds a truthy handler.
Exactly when this holds does `_execute_step` reach the retry loop. -/
def resolves (reg : Registry) (step : Step) : Bool :=
  let toolName := pyLower step.tool
  match List.lookup toolName reg with
  | none => false
  | some ti =>
    match resolveFunction ti.functions toolName step with
    | none => false
    | some fname =>
      match List.lookup fname ti.functions with
      | some fi => fi.hasHandler
      | none => false

/-- The aggregated report built by `execute_plan`. `tools_used` in the source
is a Python set converted with `list(...)` at the end (enumeration order is
implementation-defined); it is modelled as a duplicate-free list in insertion
order, so only its membership and duplicate-freeness reflect the source.
`execution_time` is wall-clock time, passed in as the opaque `elapsed` value
on the non-empty path and set to `0` on the empty path as in the source.
`error` is `some` only when the short-circuit marker key is set. -/
structure ExecutionReport where
  plan : Plan
  step_results : List StepResult
  tools_used : List String
  total_steps : Nat
  successful_steps : Nat
  failed_steps : Nat
  error : Option String
  execution_time : Nat
deriving DecidableEq, Repr

/-- Insertion into the `tools_used` set (`set.add`), modelled in insertion
order: a no-op when the element is already present. -/
def setInsert (s : List String) (x : String) : List String :=
  if x ∈ s then s else s ++ [x]

/-- Accumulation of `tools_used` over the executed (step, result) pairs: the
step's original (non-lowercased) `tool` value is added exactly when the step
succeeded. -/
def toolsUsedAux : List (Step × StepResult) → List String → List String
  | [], acc => acc
  | (s, r) :: rest, acc =>
    toolsUsedAux rest (if r.success then setInsert acc s.tool else acc)

/-- Sequential execution of the steps through `_execute_step`. The behaviour
`b i` describes the handler invocation outcomes for the `i`-th step. -/
def runSteps (reg : Registry) (maxRetries : Nat)
    (b : Nat → Nat → HandlerOutcome) : Nat → List Step → List StepResult
  | _, [] => []
  | i, s :: rest =>
    executeStep reg maxRetries (b i) s :: runSteps reg maxRetries b (i + 1) rest

/-- `execute_plan`: short-circuit on an empty step list, otherwise run every
step in order, count successes and failures, and accumulate `tools_used`
from the successful steps. -/
def executePlan (reg : Registry) (maxRetries : Nat)
    (b : Nat → Nat → HandlerOutcome) (elapsed : Nat) (plan : Plan) :
    ExecutionReport :=
  if plan.steps = [] then
    { plan := plan
      step_results := []
      tools_used := []
      total_steps := plan.steps.length
      successful_steps := 0
      failed_steps := 0
      error := some "No executable steps in plan"
      execution_time := 0 }
  else
    let results := runSteps reg maxRetries b 0 plan.steps
    { plan := plan
      step_results := results
      tools_used := toolsUsedAux (plan.steps.zip results) []
      total_steps := plan.steps.length
      successful_steps := results.countP (fun r => r.success)
      failed_steps := results.countP (fun r => !r.success)
      error := none
      execution_time := elapsed }

/-- The concrete github registry entry (`TOOL_INFO` of src/tools/github_tool.py):
declared functions, their parameter names, and bound handlers. -/
def GITHUB_TOOL_INFO : ToolInfo :=
  ⟨[("search_repositories", ⟨["query", "limit"], true⟩),
    ("get_repository_details", ⟨["owner", "repo"], true⟩),
    ("get_user_repos", ⟨["username", "limit"], true⟩)]⟩

/-- Modelled from the spec: src/tools/weather_tool.py is not present in the
sources; its two functions and bound handlers are fixed by the imports in
src/tools/__init__.py, and their parameter names (a city parameter, and
latitude/longitude parameters) by spec sections 4.2 and 6. -/
def WEATHER_TOOL_INFO : ToolInfo :=
  ⟨[("get_current_weather", ⟨["city"], true⟩),
    ("get_weather_by_coordinates", ⟨["lat", "lon"], true⟩)]⟩

/-- Modelled from the spec: src/tools/news_tool.py is not present in the
sources; its two functions and bound handlers are fixed by the imports in
src/tools/__init__.py, and their parameter names (a query and a count
parameter) by spec sections 4.2 and 6. -/
def NEWS_TOOL_INFO : ToolInfo :=
  ⟨[("search_news", ⟨["query", "limit"], true⟩),
    ("get_top_headlines", ⟨["category", "limit"], true⟩)]⟩

/-- `TOOLS_REGISTRY` of src/tools/__init__.py: the three registered tools. -/
def TOOLS_REGISTRY : Registry :=
  [("github", GITHUB_TOOL_INFO),
   ("weather", WEATHER_TOOL_INFO),
   ("news", NEWS_TOOL_INFO)]

/-- One entry of the verifier's `failed_steps` list: the `step_id`, `action`
and `error` values copied from a failed step result (`error` may be `None`). -/
structure FailedStepEntry where
  step_id : String
  action : String
  error : Option String
deriving DecidableEq, Repr

/-- The verification dict returned by `verify_and_format`. Keys that some
return paths omit (or that may be bound to `None`) are `Option` fields:
`missing_info` and `suggestions` are absent from some paths,
`successful_steps` and `total_steps` are added only on the LLM path. -/
structure VerificationResult where
  is_complete : Bool
  formatted_answer : Option String
  missing_info : Option (List String)
  failed_steps : List FailedStepEntry
  suggestions : Option (List String)
  successful_steps : Option Nat
  total_steps : Option Nat
deriving DecidableEq, Repr

/-- The dict returned by the external text-generation capability
(`llm_client.verify_results`), reduced to the keys the verifier reads. -/
structure LLMVerification where
  formatted_answer : Option String
  is_complete : Bool
  missing_info : Option (List String)
  suggestions : Option (List String)
deriving DecidableEq, Repr

/-- Outcome of the external text-generation capability for one verification
request: any fault inside the `try` block (initialisation or the call
itself), or a returned verification dict. -/
inductive LLMOutcome where
  | fails : LLMOutcome
  | returns (v : LLMVerification) : LLMOutcome
deriving DecidableEq, Repr

/-- Rendering of a maybe-`None` string inside an f-string
(`None` prints as `"None"`). -/
def renderOptStr : Option String → String
  | some s => s
  | none => "None"

/-- Python's `sep.join(parts)`. -/
def pyJoin (sep : String) : List String → String
  | [] => ""
  | [a] => a
  | a :: rest => a ++ (sep ++ pyJoin sep rest)

/-- Truthiness of a maybe-absent string value
(`verification.get("formatted_answer")`). -/
def truthyStr : Option String → Bool
  | some s => s ≠ ""
  | none => false

/-- `_format_failure_note`: the note listing each failed step's action and
error, joined with newlines under a fixed header; empty when there are no
failed steps. -/
def formatFailureNote (failed : List FailedStepEntry) : String :=
  if failed = [] then ""
  else
    pyJoin "\n"
      ("\n\n**Note:** Some information could not be retrieved:" ::
        failed.map (fun s => "- " ++ s.action ++ ": " ++ renderOptStr s.error))

/-- The per-step line of the all-failed summary
(`f"- Step {step_id}: {error}"`). -/
def allFailedLine (s : FailedStepEntry) : String :=
  "- Step " ++ s.step_id ++ ": " ++ renderOptStr s.error

/-- `_format_all_failed`: the deterministic summary returned when every step
failed, enumerating each failed step's id and error and appending the fixed
troubleshooting suggestions. -/
def formatAllFailed (originalTask : String) (failed : List FailedStepEntry) :
    VerificationResult :=
  let errorDetails := failed.map allFailedLine
  let formattedAnswer :=
    "I was unable to complete your request: \"" ++ originalTask ++ "\"" ++
    "\n\nAll execution steps failed with the following errors:\n" ++
    pyJoin "\n" errorDetails ++
    "\n\n**Suggestions:**" ++
    "\n- Check that all required API keys are configured in your .env file" ++
    "\n- Verify your internet connection" ++
    "\n- Try simplifying your query" ++
    "\n- Check if the requested resources exist (e.g., valid city names, repository names)"
  { is_complete := false
    formatted_answer := some formattedAnswer
    missing_info := some ["All requested information due to execution failures"]
    failed_steps := failed
    suggestions :=
      some ["Verify API keys are configured", "Check internet connection",
            "Try a simpler query"]
    successful_steps := none
    total_steps := none }

/-- `_basic_format`: the deterministic fallback used when the LLM call fails.
For each successful result it renders a per-tool section; the rendering of a
payload (`_format_tool_data` and its helpers, which walk external API data
abstracted away in `Payload`) is the parameter `renderData`. The failure note
is appended when any step failed. -/
def basicFormat (renderData : String → Option Payload → String)
    (originalTask : String) (stepResults : List StepResult)
    (failed : List FailedStepEntry) : VerificationResult :=
  let headParts := ["**Results for:** " ++ originalTask ++ "\n"]
  let successParts :=
    (stepResults.filter (fun r => r.success)).flatMap
      (fun r => ["\n**" ++ pyUpper r.tool ++ " Results:**",
                 renderData r.tool r.data])
  let parts := headParts ++ successParts
  let parts := if failed = [] then parts else parts ++ [formatFailureNote failed]
  { is_complete := decide (failed = [])
    formatted_answer := some (pyJoin "\n" parts)
    missing_info := none
    failed_steps := failed
    suggestions := some []
    successful_steps := none
    total_steps := none }

/-- `verify_and_format`: decision tree over the step results. No results →
canned response; all failed → deterministic all-failed summary (no LLM call);
otherwise delegate to the text-generation capability (`llm`), appending the
failure note to a truthy answer when some steps failed, and fall back to
`_basic_format` when that capability fails. -/
def verifyAndFormat (llm : LLMOutcome)
    (renderData : String → Option Payload → String) (originalTask : String)
    (executionResults : ExecutionReport) : VerificationResult :=
  let stepResults := executionResults.step_results
  if stepResults = [] then
    { is_complete := false
      formatted_answer :=
        some "No results were obtained. The execution plan was empty or all steps failed."
      missing_info := some ["All requested information"]
      failed_steps := []
      suggestions := some ["Please try rephrasing your query"]
      successful_steps := none
      total_steps := none }
  else
    let failed :=
      (stepResults.filter (fun r => !r.success)).map
        (fun r => FailedStepEntry.mk r.step_id r.action r.error)
    let successfulResults := stepResults.filter (fun r => r.success)
    if successfulResults = [] then
      formatAllFailed originalTask failed
    else
      match llm with
      | .fails => basicFormat renderData originalTask stepResults failed
      | .returns v =>
        let answer :=
          if failed ≠ [] ∧ truthyStr v.formatted_answer then
            some (v.formatted_answer.getD "" ++ formatFailureNote failed)
          else
            v.formatted_answer
        { is_complete := v.is_complete
          formatted_answer := answer
          missing_info := v.missing_info
          failed_steps := failed
          suggestions := v.suggestions
          successful_steps := some successfulResults.length
          total_steps := some stepResults.length }

/-! Helper lemmas about strings and substring containment. -/

theorem string_data_ne_nil_iff (s : String) : s ≠ "" ↔ s.data ≠ [] := by
  rw [not_iff_not]
  exact ⟨fun h => h ▸ rfl, fun h => by cases s; simp_all⟩

theorem listSub_iff (n h : List Char) :
    listSub n h = true ↔ ∃ s t, s ++ n ++ t = h := by
  induction h with
  | nil =>
    simp only [listSub, List.isEmpty_iff]
    constructor
    · rintro rfl; exact ⟨[], [], rfl⟩
    · rintro ⟨s, t, hst⟩
      rcases List.append_eq_nil.mp hst with ⟨h1, h2⟩
      rcases List.append_eq_nil.mp h1 with ⟨_, h3⟩
      exact h3
  | cons c rest ih =>
    simp only [listSub, Bool.or_eq_true, ih, List.isPrefixOf_iff_prefix]
    constructor
    · rintro (⟨t, ht⟩ | ⟨s, t, rfl⟩)
      · exact ⟨[], t, by simpa using ht⟩
      · exact ⟨c :: s, t, rfl⟩
    · rintro ⟨s, t, hst⟩
      cases s with
      | nil => exact Or.inl ⟨t, by simpa using hst⟩
      | cons a s' =>
        right
        rcases List.cons.injEq a (s' ++ n ++ t) c rest ▸ hst with h'
        injection hst with h1 h2
        exact ⟨s', t, h2⟩

theorem strSub_iff (n h : String) :
    strSub n h = true ↔ ∃ s t, s ++ n.data ++ t = h.data :=
  listSub_iff n.data h.data

theorem strSub_refl (s : String) : strSub s s = true :=
  (strSub_iff s s).mpr ⟨[], [], by simp⟩

theorem strSub_append_left (w n v : String) (hs : strSub n v = true) :
    strSub n (w ++ v) = true := by
  obtain ⟨s, t, hst⟩ := (strSub_iff n v).mp hs
  exact (strSub_iff n (w ++ v)).mpr
    ⟨w.data ++ s, t, by rw [String.data_append, ← hst]; simp⟩

theorem strSub_append_right (n v w : String) (hs : strSub n v = true) :
    strSub n (v ++ w) = true := by
  obtain ⟨s, t, hst⟩ := (strSub_iff n v).mp hs
  exact (strSub_iff n (v ++ w)).mpr
    ⟨s, t ++ w.data, by rw [String.data_append, ← hst]; simp⟩

theorem strSub_trans (a b c : String) (h1 : strSub a b = true)
    (h2 : strSub b c = true) : strSub a c = true := by
  obtain ⟨s1, t1, h1'⟩ := (strSub_iff a b).mp h1
  obtain ⟨s2, t2, h2'⟩ := (strSub_iff b c).mp h2
  exact (strSub_iff a c).mpr
    ⟨s2 ++ s1, t1 ++ t2, by rw [← h2', ← h1']; simp⟩

theorem strSub_ne_empty (n h : String) (hs : strSub n h = true) (hn : n ≠ "") :
    h ≠ "" := by
  obtain ⟨s, t, hst⟩ := (strSub_iff n h).mp hs
  rw [string_data_ne_nil_iff] at hn ⊢
  intro hd
  rw [hd] at hst
  rcases List.append_eq_nil.mp hst with ⟨h1, _⟩
  rcases List.append_eq_nil.mp h1 with ⟨_, h3⟩
  exact hn h3

theorem strSub_mem_pyJoin (sep : String) (l : List String) (s : String)
    (hmem : s ∈ l) : strSub s (pyJoin sep l) = true := by
  induction l with
  | nil => cases hmem
  | cons a rest ih =>
    rcases List.mem_cons.mp hmem with rfl | hrest
    · cases rest with
      | nil => exact strSub_refl s
      | cons b r =>
        show strSub s (s ++ (sep ++ pyJoin sep (b :: r))) = true
        exact strSub_append_right s s _ (strSub_refl s)
    · have hne : rest ≠ [] := List.ne_nil_of_mem hrest
      cases rest with
      | nil => exact absurd rfl hne
      | cons b r =>
        show strSub s (a ++ (sep ++ pyJoin sep (b :: r))) = true
        exact strSub_append_left a s _
          (strSub_append_left sep s _ (ih hrest))

/-! Helper lemmas about the retry loop. -/

theorem isSome_payloadError_of_soft (p : Payload) (h : isSoftError p = true) :
    (payloadError p).isSome = true := by
  cases p with
  | pdict e => cases e <;> simp_all [isSoftError, payloadError]
  | pother => simp [isSoftError] at h

theorem attemptLoop_zero (b : Nat → HandlerOutcome) (attempt : Nat)
    (res : StepResult) : attemptLoop b 0 attempt res = res := rfl

theorem attemptLoop_attempts_bounds (b : Nat → HandlerOutcome) :
    ∀ f attempt res, 0 < f →
      attempt + 1 ≤ (attemptLoop b f attempt res).attempts ∧
        (attemptLoop b f attempt res).attempts ≤ attempt + f := by
  intro f
  induction f with
  | zero => intro attempt res hf; omega
  | succ f ih =>
    intro attempt res hf
    cases hb : b attempt with
    | returns p =>
      cases hsoft : isSoftError p with
      | true =>
        by_cases h1 : 0 < f
        · simp only [attemptLoop, hb, hsoft, if_true, h1]
          obtain ⟨h2, h3⟩ := ih (attempt + 1) { res with attempts := attempt + 1 } h1
          exact ⟨by omega, by omega⟩
        · have hf0 : f = 0 := by omega
          subst hf0
          simp only [attemptLoop, hb, hsoft, if_true, lt_irrefl, if_false]
          exact ⟨by omega, by omega⟩
      | false =>
        simp only [attemptLoop, hb, hsoft, Bool.false_eq_true, if_false]
        exact ⟨by omega, by omega⟩
    | raises msg =>
      by_cases h1 : 0 < f
      · simp only [attemptLoop, hb, h1, if_true]
        obtain ⟨h2, h3⟩ := ih (attempt + 1) { res with attempts := attempt + 1 } h1
        exact ⟨by omega, by omega⟩
      · have hf0 : f = 0 := by omega
        subst hf0
        simp only [attemptLoop, hb, lt_irrefl, if_false]
        exact ⟨by omega, by omega⟩

theorem attemptLoop_invariant (b : Nat → HandlerOutcome) :
    ∀ f attempt res, 0 < f →
      res.success = false → res.error = none → res.data = none →
      (((attemptLoop b f attempt res).success = true →
          (attemptLoop b f attempt res).error = none ∧
            (attemptLoop b f attempt res).data.isSome = true) ∧
        ((attemptLoop b f attempt res).success = false →
          (attemptLoop b f attempt res).error.isSome = true)) := by
  intro f
  induction f with
  | zero => intro attempt res hf; omega
  | succ f ih =>
    intro attempt res hf hsu he hd
    cases hb : b attempt with
    | returns p =>
      cases hsoft : isSoftError p with
      | true =>
        by_cases h1 : 0 < f
        · simp only [attemptLoop, hb, hsoft, if_true, h1]
          exact ih (attempt + 1) { res with attempts := attempt + 1 } h1 hsu he hd
        · have hf0 : f = 0 := by omega
          subst hf0
          simp only [attemptLoop, hb, hsoft, if_true, lt_irrefl, if_false]
          refine ⟨fun hcontra => ?_, fun _ => ?_⟩
          · exact absurd (hsu ▸ hcontra) (by simp)
          · exact isSome_payloadError_of_soft p hsoft
      | false =>
        simp only [attemptLoop, hb, hsoft, Bool.false_eq_true, if_false]
        refine ⟨fun _ => ⟨?_, ?_⟩, fun hcontra => ?_⟩
        · exact he
        · rfl
        · exact absurd hcontra (by simp)
    | raises msg =>
      by_cases h1 : 0 < f
      · simp only [attemptLoop, hb, h1, if_true]
        exact ih (attempt + 1) { res with attempts := attempt + 1 } h1 hsu he hd
      · have hf0 : f = 0 := by omega
        subst hf0
        simp only [attemptLoop, hb, lt_irrefl, if_false]
        refine ⟨fun hcontra => ?_, fun _ => rfl⟩
        exact absurd (hsu ▸ hcontra) (by simp)

theorem attemptLoop_all_raises (b : Nat → HandlerOutcome) (msg : Nat → String)
    (hb : ∀ i, b i = .raises (msg i)) :
    ∀ f attempt res, 0 < f →
      attemptLoop b f attempt res =
        { res with attempts := attempt + f,
                   error := some (msg (attempt + f - 1)) } := by
  intro f
  induction f with
  | zero => intro attempt res hf; omega
  | succ f ih =>
    intro attempt res hf
    by_cases h1 : 0 < f
    · simp only [attemptLoop, hb attempt, h1, if_true]
      rw [ih (attempt + 1) { res with attempts := attempt + 1 } h1]
      have h2 : attempt + 1 + f = attempt + (f + 1) := by omega
      rw [h2]
    · have hf0 : f = 0 := by omega
      subst hf0
      simp only [attemptLoop, hb attempt, lt_irrefl, if_false]
      rfl


theorem executeStep_of_resolves (reg : Registry) (m : Nat)
    (b : Nat → HandlerOutcome) (step : Step)
    (h : resolves reg step = true) :
    executeStep reg m b step =
      attemptLoop b m 0 (baseResult step (pyLower step.tool)) := by
  unfold executeStep
  cases hlk : List.lookup (pyLower step.tool) reg with
  | none => simp [resolves, hlk] at h
  | some ti =>
    cases hrf : resolveFunction ti.functions (pyLower step.tool) step with
    | none => simp [resolves, hlk, hrf] at h
    | some fname =>
      cases hfi : List.lookup fname ti.functions with
      | none => simp [resolves, hlk, hrf, hfi] at h
      | some fi =>
        have hh : fi.hasHandler = true := by simpa [resolves, hlk, hrf, hfi] using h
        simp [hlk, hrf, hfi, hh]

theorem executeStep_of_not_resolves (reg : Registry) (m : Nat)
    (b : Nat → HandlerOutcome) (step : Step)
    (h : resolves reg step = false) :
    (executeStep reg m b step).attempts = 0 ∧
      (executeStep reg m b step).success = false ∧
      (executeStep reg m b step).error.isSome = true ∧
      ∀ b', executeStep reg m b' step = executeStep reg m b step := by
  unfold executeStep
  cases hlk : List.lookup (pyLower step.tool) reg with
  | none => simp [hlk, baseResult]
  | some ti =>
    cases hrf : resolveFunction ti.functions (pyLower step.tool) step with
    | none => simp [hlk, hrf, baseResult]
    | some fname =>
      cases hfi : List.lookup fname ti.functions with
      | none => simp [hlk, hrf, hfi, baseResult]
      | some fi =>
        have hh : fi.hasHandler = false := by simpa [resolves, hlk, hrf, hfi] using h
        simp [hlk, hrf, hfi, hh, baseResult]

/-! Concrete sample inputs used by counterexamples and witnesses. -/

/-- A registry holding a tool with no declared functions, exercising the
registry-generic resolution logic of `_execute_step`. -/
def slackRegistry : Registry := [("slack", ⟨[]⟩)]

/-- A step requesting an undeclared function of the `slack` tool. -/
def sampleStepSlack : Step := ⟨"1", "Slack", "post_message", "post a message", []⟩

/-- A step resolving to the weather tool's current-weather function. -/
def sampleStepWeather : Step :=
  ⟨"1", "weather", "get_current_weather", "get weather for Delhi", ["city"]⟩

/-- A handler behaviour that returns a non-dict payload on every attempt. -/
def alwaysOk : Nat → HandlerOutcome := fun _ => .returns .pother

/-- A handler behaviour that raises a fault with text "boom" on every
attempt. -/
def alwaysBoom : Nat → HandlerOutcome := fun _ => .raises "boom"

/-- A handler behaviour that raises a fault whose stringified text is empty
(e.g. Python `raise Exception()`) on every attempt. -/
def alwaysEmptyFault : Nat → HandlerOutcome := fun _ => .raises ""

/-- C1, counterexample: for a registered tool (`slack`) with an undeclared
requested function (`post_message`) on which inference yields no match, the
recorded error is "Unknown function 'None' for tool 'slack'" — the message
interpolates the overwritten (inference) result, not the originally requested
function name, so it is not of the claimed form
"Unknown function 'post_message' for tool 'slack'". -/
theorem c1_counterexample :
    List.lookup (pyLower sampleStepSlack.tool) slackRegistry = some ⟨[]⟩ ∧
    List.lookup sampleStepSlack.function (ToolInfo.mk []).functions = none ∧
    inferFunction (pyLower sampleStepSlack.tool) sampleStepSlack = none ∧
    (executeStep slackRegistry 3 alwaysOk sampleStepSlack).success = false ∧
    (executeStep slackRegistry 3 alwaysOk sampleStepSlack).error =
      some "Unknown function 'None' for tool 'slack'" ∧
    (executeStep slackRegistry 3 alwaysOk sampleStepSlack).error ≠
      some "Unknown function 'post_message' for tool 'slack'" := by
  decide

/-- C1 (amended): when the tool is registered, the requested function is not
declared for it, and inference yields no match, the Step Executor returns a
failed StepResult with `attempts = 0` whose error message is
"Unknown function 'None' for tool '&lt;tool&gt;'" — naming the null inference
result rather than the originally requested function — and the handler is
never invoked (the result does not depend on the handler behaviour). -/
theorem c1_unknown_function_message (reg : Registry) (m : Nat)
    (b : Nat → HandlerOutcome) (step : Step) (ti : ToolInfo)
    (hlk : List.lookup (pyLower step.tool) reg = some ti)
    (hfn : List.lookup step.function ti.functions = none)
    (hinf : inferFunction (pyLower step.tool) step = none) :
    (executeStep reg m b step).success = false ∧
    (executeStep reg m b step).attempts = 0 ∧
    (executeStep reg m b step).error =
      some ("Unknown function 'None' for tool '" ++ (pyLower step.tool) ++ "'") ∧
    ∀ b', executeStep reg m b' step = executeStep reg m b step := by
  have hrf : resolveFunction ti.functions (pyLower step.tool) step = none := by
    simp [resolveFunction, hfn, hinf]
  unfold executeStep
  simp [hlk, hrf, baseResult]

/-- C1, witness: the amended theorem applied to the concrete slack step. -/
theorem c1_witness :
    List.lookup (pyLower sampleStepSlack.tool) slackRegistry = some ⟨[]⟩ ∧
    List.lookup sampleStepSlack.function (ToolInfo.mk []).functions = none ∧
    inferFunction (pyLower sampleStepSlack.tool) sampleStepSlack = none ∧
    ((executeStep slackRegistry 5 alwaysBoom sampleStepSlack).success = false ∧
      (executeStep slackRegistry 5 alwaysBoom sampleStepSlack).attempts = 0 ∧
      (executeStep slackRegistry 5 alwaysBoom sampleStepSlack).error =
        some ("Unknown function 'None' for tool '" ++
          (pyLower sampleStepSlack.tool) ++ "'") ∧
      ∀ b', executeStep slackRegistry 5 b' sampleStepSlack =
        executeStep slackRegistry 5 alwaysBoom sampleStepSlack) :=
  ⟨by decide, by decide, by decide,
    c1_unknown_function_message slackRegistry 5 alwaysBoom sampleStepSlack
      ⟨[]⟩ (by decide) (by decide) (by decide)⟩

/-- C3, counterexample: a resolvable step whose handler raises a fault with
empty stringified text on every attempt yields `success = false` with
`error` present but equal to the empty string, refuting the claimed
non-emptiness of the error. -/
theorem c3_counterexample :
    (executeStep TOOLS_REGISTRY 3 alwaysEmptyFault sampleStepWeather).success
        = false ∧
    (executeStep TOOLS_REGISTRY 3 alwaysEmptyFault sampleStepWeather).error
        = some "" := by
  decide

/-- C3 (amended): for every step and handler outcome (with at least one
retry attempt configured, as in the source default of 3): if `success` is
true then `error` is absent and `data` is present; if `success` is false
then `error` is present — as a string that may be empty exactly when the
final attempt's fault text is empty. -/
theorem c3_result_invariant (reg : Registry) (m : Nat)
    (b : Nat → HandlerOutcome) (step : Step) (hm : 1 ≤ m) :
    ((executeStep reg m b step).success = true →
      (executeStep reg m b step).error = none ∧
        (executeStep reg m b step).data.isSome = true) ∧
    ((executeStep reg m b step).success = false →
      (executeStep reg m b step).error.isSome = true) := by
  cases hr : resolves reg step with
  | false =>
    obtain ⟨_, hsu, he, _⟩ := executeStep_of_not_resolves reg m b step hr
    refine ⟨fun hcontra => ?_, fun _ => he⟩
    rw [hcontra] at hsu
    exact Bool.noConfusion hsu
  | true =>
    rw [executeStep_of_resolves reg m b step hr]
    exact attemptLoop_invariant b m 0
      (baseResult step (pyLower step.tool)) (by omega) rfl rfl rfl

/-- C3, witness: the amended invariant applied to the weather step with an
always-succeeding handler and the default three retries. -/
theorem c3_witness :
    1 ≤ 3 ∧
    (((executeStep TOOLS_REGISTRY 3 alwaysOk sampleStepWeather).success = true →
      (executeStep TOOLS_REGISTRY 3 alwaysOk sampleStepWeather).error = none ∧
        (executeStep TOOLS_REGISTRY 3 alwaysOk sampleStepWeather).data.isSome
          = true) ∧
    ((executeStep TOOLS_REGISTRY 3 alwaysOk sampleStepWeather).success = false →
      (executeStep TOOLS_REGISTRY 3 alwaysOk sampleStepWeather).error.isSome
        = true)) :=
  ⟨by decide,
    c3_result_invariant TOOLS_REGISTRY 3 alwaysOk sampleStepWeather (by decide)⟩

/-- C4: with at least one retry attempt configured, the returned `attempts`
is 0 exactly when resolution failed before any handler invocation, lies in
`[1, max_retries]` whenever resolution succeeded (so the handler was invoked
at least once), and on resolution failure the result is independent of the
handler behaviour (the handler is never invoked). -/
theorem c4_attempts_bounds (reg : Registry) (m : Nat)
    (b : Nat → HandlerOutcome) (step : Step) (hm : 1 ≤ m) :
    ((executeStep reg m b step).attempts = 0 ↔ resolves reg step = false) ∧
    (resolves reg step = true →
      1 ≤ (executeStep reg m b step).attempts ∧
        (executeStep reg m b step).attempts ≤ m) ∧
    (resolves reg step = false →
      ∀ b', executeStep reg m b' step = executeStep reg m b step) := by
  cases hr : resolves reg step with
  | false =>
    obtain ⟨ha, _, _, hind⟩ := executeStep_of_not_resolves reg m b step hr
    refine ⟨by simp [ha], fun hcontra => ?_, fun _ => hind⟩
    exact Bool.noConfusion hcontra
  | true =>
    rw [executeStep_of_resolves reg m b step hr]
    obtain ⟨hb1, hb2⟩ := attemptLoop_attempts_bounds b m 0
      (baseResult step (pyLower step.tool)) (by omega)
    refine ⟨⟨fun h0 => ?_, fun hcontra => ?_⟩, fun _ => ⟨?_, ?_⟩,
      fun hcontra => ?_⟩
    · rw [h0] at hb1
      omega
    · exact Bool.noConfusion hcontra
    · omega
    · omega
    · exact Bool.noConfusion hcontra

/-- C4, witness: the bounds applied to the weather step with an
always-raising handler and the default three retries. -/
theorem c4_witness :
    1 ≤ 3 ∧
    (((executeStep TOOLS_REGISTRY 3 alwaysBoom sampleStepWeather).attempts = 0
        ↔ resolves TOOLS_REGISTRY sampleStepWeather = false) ∧
    (resolves TOOLS_REGISTRY sampleStepWeather = true →
      1 ≤ (executeStep TOOLS_REGISTRY 3 alwaysBoom sampleStepWeather).attempts ∧
        (executeStep TOOLS_REGISTRY 3 alwaysBoom sampleStepWeather).attempts
          ≤ 3) ∧
    (resolves TOOLS_REGISTRY sampleStepWeather = false →
      ∀ b', executeStep TOOLS_REGISTRY 3 b' sampleStepWeather =
        executeStep TOOLS_REGISTRY 3 alwaysBoom sampleStepWeather)) :=
  ⟨by decide,
    c4_attempts_bounds TOOLS_REGISTRY 3 alwaysBoom sampleStepWeather (by decide)⟩

/-- C5: a resolvable step whose handler raises a fault on every invocation
yields `success = false`, exactly `max_retries` attempts, and an error equal
to the stringified text of the fault raised on the final attempt. -/
theorem c5_always_raises (reg : Registry) (m : Nat) (b : Nat → HandlerOutcome)
    (msg : Nat → String) (step : Step) (hm : 1 ≤ m)
    (hres : resolves reg step = true) (hb : ∀ i, b i = .raises (msg i)) :
    (executeStep reg m b step).success = false ∧
    (executeStep reg m b step).attempts = m ∧
    (executeStep reg m b step).error = some (msg (m - 1)) := by
  rw [executeStep_of_resolves reg m b step hres]
  rw [attemptLoop_all_raises b msg hb m 0
    (baseResult step (pyLower step.tool)) (by omega)]
  rw [Nat.zero_add]
  exact ⟨rfl, rfl, rfl⟩

/-- C5, witness: the theorem applied to the weather step with a handler that
always raises "boom" and the default three retries. -/
theorem c5_witness :
    1 ≤ 3 ∧ resolves TOOLS_REGISTRY sampleStepWeather = true ∧
    ((executeStep TOOLS_REGISTRY 3 alwaysBoom sampleStepWeather).success
        = false ∧
      (executeStep TOOLS_REGISTRY 3 alwaysBoom sampleStepWeather).attempts = 3 ∧
      (executeStep TOOLS_REGISTRY 3 alwaysBoom sampleStepWeather).error
        = some "boom") :=
  ⟨by decide, by decide,
    c5_always_raises TOOLS_REGISTRY 3 alwaysBoom (fun _ => "boom")
      sampleStepWeather (by decide) (by decide) (fun _ => rfl)⟩

/-! Helper lemmas about plan execution and `tools_used` accumulation. -/

theorem setInsert_mem (s : List String) (x t : String) :
    t ∈ setInsert s x ↔ t ∈ s ∨ t = x := by
  unfold setInsert
  by_cases h : x ∈ s
  · simp only [h, if_true]
    constructor
    · exact Or.inl
    · rintro (h1 | rfl)
      · exact h1
      · exact h
  · simp [h]

theorem setInsert_nodup (s : List String) (x : String) (h : s.Nodup) :
    (setInsert s x).Nodup := by
  unfold setInsert
  by_cases hx : x ∈ s
  · simpa [hx]
  · simp [hx, List.nodup_append, h]

theorem toolsUsedAux_nodup (l : List (Step × StepResult)) :
    ∀ acc, acc.Nodup → (toolsUsedAux l acc).Nodup := by
  induction l with
  | nil => intro acc h; exact h
  | cons sr rest ih =>
    intro acc h
    obtain ⟨s, r⟩ := sr
    cases hs : r.success with
    | true => exact ih _ (by simpa [toolsUsedAux, hs] using setInsert_nodup acc s.tool h)
    | false => simpa [toolsUsedAux, hs] using ih acc h

theorem toolsUsedAux_mem (l : List (Step × StepResult)) :
    ∀ acc t, t ∈ toolsUsedAux l acc ↔
      t ∈ acc ∨ ∃ p ∈ l, p.2.success = true ∧ p.1.tool = t := by
  induction l with
  | nil => intro acc t; simp [toolsUsedAux]
  | cons sr rest ih =>
    intro acc t
    obtain ⟨s, r⟩ := sr
    cases hs : r.success with
    | true =>
      simp only [toolsUsedAux, hs, if_true]
      rw [ih]
      simp only [setInsert_mem, List.mem_cons]
      constructor
      · rintro ((h1 | rfl) | ⟨p, hp, h2, h3⟩)
        · exact Or.inl h1
        · exact Or.inr ⟨(s, r), Or.inl rfl, hs, rfl⟩
        · exact Or.inr ⟨p, Or.inr hp, h2, h3⟩
      · rintro (h1 | ⟨p, hp | hp, h2, h3⟩)
        · exact Or.inl (Or.inl h1)
        · subst hp
          exact Or.inl (Or.inr h3.symm)
        · exact Or.inr ⟨p, hp, h2, h3⟩
    | false =>
      simp only [toolsUsedAux, hs, Bool.false_eq_true, if_false]
      rw [ih]
      simp only [List.mem_cons]
      constructor
      · rintro (h1 | ⟨p, hp, h2, h3⟩)
        · exact Or.inl h1
        · exact Or.inr ⟨p, Or.inr hp, h2, h3⟩
      · rintro (h1 | ⟨p, hp | hp, h2, h3⟩)
        · exact Or.inl h1
        · subst hp
          exact absurd h2 (by simp [hs])
        · exact Or.inr ⟨p, hp, h2, h3⟩

theorem runSteps_length (reg : Registry) (m : Nat)
    (b : Nat → Nat → HandlerOutcome) :
    ∀ (l : List Step) (k : Nat), (runSteps reg m b k l).length = l.length := by
  intro l
  induction l with
  | nil => intro k; rfl
  | cons s rest ih => intro k; simp [runSteps, ih]

theorem runSteps_getElem (reg : Registry) (m : Nat)
    (b : Nat → Nat → HandlerOutcome) :
    ∀ (l : List Step) (k i : Nat),
      (runSteps reg m b k l)[i]? =
        (l[i]?).map (fun s => executeStep reg m (b (k + i)) s) := by
  intro l
  induction l with
  | nil => intro k i; simp [runSteps]
  | cons s rest ih =>
    intro k i
    cases i with
    | zero => simp [runSteps]
    | succ j =>
      have h2 : k + (j + 1) = (k + 1) + j := by omega
      rw [h2]
      simpa [runSteps] using ih (k + 1) j

theorem countP_success_total (l : List StepResult) :
    l.countP (fun r => r.success) + l.countP (fun r => !r.success) =
      l.length := by
  induction l with
  | nil => rfl
  | cons r rest ih =>
    cases hr : r.success <;> simp [List.countP_cons, hr] <;> omega

/-- The claim's reading of `tools_used` (the spec's wording): the tools of
the executed steps, in first-occurrence order without duplicates. Stated
only for comparison against the report's actual `tools_used`. -/
def specFirstOccurrenceTools (steps : List Step) : List String :=
  (steps.map Step.tool).foldl setInsert []

/-- An empty plan, for the short-circuit path. -/
def emptyPlan : Plan := ⟨"empty task", []⟩

/-- A one-step plan over the weather tool. -/
def planWeather : Plan := ⟨"weather task", [sampleStepWeather]⟩

/-- C2, counterexample: in a one-step plan whose single (executed) step
fails, `tools_used` is empty instead of listing that step's tool: the code
only accumulates tools of successful steps, so `tools_used` is not the
first-occurrence sequence of the executed steps' tools. -/
theorem c2_counterexample :
    (executePlan TOOLS_REGISTRY 3 (fun _ => alwaysBoom) 7
        planWeather).step_results.length = 1 ∧
    (∀ r ∈ (executePlan TOOLS_REGISTRY 3 (fun _ => alwaysBoom) 7
        planWeather).step_results, r.success = false) ∧
    specFirstOccurrenceTools planWeather.steps = ["weather"] ∧
    (executePlan TOOLS_REGISTRY 3 (fun _ => alwaysBoom) 7
        planWeather).tools_used = [] := by
  decide

/-- C2 (amended): for every plan with at least one step, `tools_used` is
duplicate-free and contains exactly the tools of the successful steps (the
source accumulates them in a Python set whose final enumeration order is
implementation-defined; membership and duplicate-freeness are the retained
guarantees). -/
theorem c2_tools_used (reg : Registry) (m : Nat)
    (b : Nat → Nat → HandlerOutcome) (elapsed : Nat) (plan : Plan)
    (h : plan.steps ≠ []) :
    (executePlan reg m b elapsed plan).tools_used.Nodup ∧
    ∀ t, t ∈ (executePlan reg m b elapsed plan).tools_used ↔
      ∃ p ∈ plan.steps.zip (executePlan reg m b elapsed plan).step_results,
        p.2.success = true ∧ p.1.tool = t := by
  simp only [executePlan, if_neg h]
  refine ⟨toolsUsedAux_nodup _ _ List.nodup_nil, fun t => ?_⟩
  rw [toolsUsedAux_mem]
  simp

/-- C2, witness: the amended statement applied to the one-step weather plan
with an always-succeeding handler. -/
theorem c2_witness :
    planWeather.steps ≠ [] ∧
    ((executePlan TOOLS_REGISTRY 3 (fun _ => alwaysOk) 7
        planWeather).tools_used.Nodup ∧
    ∀ t, t ∈ (executePlan TOOLS_REGISTRY 3 (fun _ => alwaysOk) 7
        planWeather).tools_used ↔
      ∃ p ∈ planWeather.steps.zip
        (executePlan TOOLS_REGISTRY 3 (fun _ => alwaysOk) 7
          planWeather).step_results,
        p.2.success = true ∧ p.1.tool = t) :=
  ⟨by decide,
    c2_tools_used TOOLS_REGISTRY 3 (fun _ => alwaysOk) 7 planWeather
      (by decide)⟩

/-- C6: a plan with an empty step sequence short-circuits into the
degenerate report — zero totals and counts, the fixed error marker,
execution time 0 — and the Step Executor is never invoked (the report does
not depend on the handler behaviour or the elapsed time). -/
theorem c6_empty_plan (reg : Registry) (m : Nat)
    (b : Nat → Nat → HandlerOutcome) (elapsed : Nat) (plan : Plan)
    (h : plan.steps = []) :
    executePlan reg m b elapsed plan =
      { plan := plan, step_results := [], tools_used := [],
        total_steps := 0, successful_steps := 0, failed_steps := 0,
        error := some "No executable steps in plan", execution_time := 0 } ∧
    ∀ b' elapsed', executePlan reg m b' elapsed' plan =
      executePlan reg m b elapsed plan := by
  constructor
  · simp [executePlan, h]
  · intro b' e'
    simp [executePlan, h]

/-- C6, witness: the empty plan yields the degenerate report. -/
theorem c6_witness :
    emptyPlan.steps = [] ∧
    (executePlan TOOLS_REGISTRY 3 (fun _ => alwaysOk) 7 emptyPlan =
      { plan := emptyPlan, step_results := [], tools_used := [],
        total_steps := 0, successful_steps := 0, failed_steps := 0,
        error := some "No executable steps in plan", execution_time := 0 } ∧
    ∀ b' elapsed', executePlan TOOLS_REGISTRY 3 b' elapsed' emptyPlan =
      executePlan TOOLS_REGISTRY 3 (fun _ => alwaysOk) 7 emptyPlan) :=
  ⟨rfl, c6_empty_plan TOOLS_REGISTRY 3 (fun _ => alwaysOk) 7 emptyPlan rfl⟩

/-- C10: for every plan with at least one step, the report satisfies
`successful_steps + failed_steps = total_steps = |step_results|`, and the
`i`-th step result is exactly the Step Executor's result for the `i`-th
plan step (one result per step, in plan order). -/
theorem c10_report_counts (reg : Registry) (m : Nat)
    (b : Nat → Nat → HandlerOutcome) (elapsed : Nat) (plan : Plan)
    (h : plan.steps ≠ []) :
    (executePlan reg m b elapsed plan).successful_steps +
        (executePlan reg m b elapsed plan).failed_steps =
      (executePlan reg m b elapsed plan).total_steps ∧
    (executePlan reg m b elapsed plan).total_steps =
      (executePlan reg m b elapsed plan).step_results.length ∧
    (executePlan reg m b elapsed plan).step_results.length =
      plan.steps.length ∧
    ∀ i : Nat, (executePlan reg m b elapsed plan).step_results[i]? =
      (plan.steps[i]?).map (fun s => executeStep reg m (b i) s) := by
  simp only [executePlan, if_neg h]
  refine ⟨?_, ?_, ?_, ?_⟩
  · rw [countP_success_total, runSteps_length]
  · rw [runSteps_length]
  · exact runSteps_length reg m b plan.steps 0
  · intro i
    have := runSteps_getElem reg m b plan.steps 0 i
    rw [Nat.zero_add] at this
    exact this

/-- C10, witness: the counting and ordering facts on the one-step weather
plan with an always-raising handler. -/
theorem c10_witness :
    planWeather.steps ≠ [] ∧
    ((executePlan TOOLS_REGISTRY 3 (fun _ => alwaysBoom) 7
        planWeather).successful_steps +
        (executePlan TOOLS_REGISTRY 3 (fun _ => alwaysBoom) 7
          planWeather).failed_steps =
      (executePlan TOOLS_REGISTRY 3 (fun _ => alwaysBoom) 7
        planWeather).total_steps ∧
    (executePlan TOOLS_REGISTRY 3 (fun _ => alwaysBoom) 7
        planWeather).total_steps =
      (executePlan TOOLS_REGISTRY 3 (fun _ => alwaysBoom) 7
        planWeather).step_results.length ∧
    (executePlan TOOLS_REGISTRY 3 (fun _ => alwaysBoom) 7
        planWeather).step_results.length = planWeather.steps.length ∧
    ∀ i : Nat, (executePlan TOOLS_REGISTRY 3 (fun _ => alwaysBoom) 7
        planWeather).step_results[i]? =
      (planWeather.steps[i]?).map
        (fun s => executeStep TOOLS_REGISTRY 3 ((fun _ => alwaysBoom) i) s)) :=
  ⟨by decide,
    c10_report_counts TOOLS_REGISTRY 3 (fun _ => alwaysBoom) 7 planWeather
      (by decide)⟩

/-- C9: for every step whose (lower-cased) tool name is registered in
`TOOLS_REGISTRY` (i.e. github, weather or news), function inference returns
some function name, so function resolution also succeeds and the
unknown-function failure branch of `_execute_step` is unreachable for
registered tools. -/
theorem c9_inference_total (step : Step)
    (h : (List.lookup (pyLower step.tool) TOOLS_REGISTRY).isSome = true) :
    (inferFunction (pyLower step.tool) step).isSome = true ∧
    ∀ ti, List.lookup (pyLower step.tool) TOOLS_REGISTRY = some ti →
      (resolveFunction ti.functions (pyLower step.tool) step).isSome
        = true := by
  have htool : pyLower step.tool = "github" ∨ pyLower step.tool = "weather" ∨
      pyLower step.tool = "news" := by
    by_contra hc
    push_neg at hc
    obtain ⟨h1, h2, h3⟩ := hc
    have e1 : (pyLower step.tool == "github") = false :=
      beq_eq_false_iff_ne.mpr h1
    have e2 : (pyLower step.tool == "weather") = false :=
      beq_eq_false_iff_ne.mpr h2
    have e3 : (pyLower step.tool == "news") = false :=
      beq_eq_false_iff_ne.mpr h3
    simp [TOOLS_REGISTRY, List.lookup, e1, e2, e3] at h
  have hinf : (inferFunction (pyLower step.tool) step).isSome = true := by
    rcases htool with ht | ht | ht <;> rw [ht] <;>
      simp only [inferFunction] <;> split_ifs <;> simp
  refine ⟨hinf, fun ti _ => ?_⟩
  by_cases hc : (List.lookup step.function ti.functions).isSome = true
  · simp [resolveFunction, hc]
  · simp only [resolveFunction]
    rw [if_neg (by simpa using hc)]
    exact hinf

/-- A step with an upper-cased news tool name and no explicit function. -/
def sampleStepNews : Step := ⟨"2", "News", "", "fetch top headlines", []⟩

/-- C9, witness: inference and resolution succeed for the concrete news
step. -/
theorem c9_witness :
    (List.lookup (pyLower sampleStepNews.tool) TOOLS_REGISTRY).isSome
        = true ∧
    ((inferFunction (pyLower sampleStepNews.tool) sampleStepNews).isSome
        = true ∧
    ∀ ti, List.lookup (pyLower sampleStepNews.tool) TOOLS_REGISTRY = some ti →
      (resolveFunction ti.functions (pyLower sampleStepNews.tool)
        sampleStepNews).isSome = true) :=
  ⟨by decide, c9_inference_total sampleStepNews (by decide)⟩

/-! Helper lemmas about the verifier. -/

theorem verifyAndFormat_all_failed (llm : LLMOutcome)
    (renderData : String → Option Payload → String) (task : String)
    (report : ExecutionReport)
    (hne : report.step_results ≠ [])
    (hall : ∀ r ∈ report.step_results, r.success = false) :
    verifyAndFormat llm renderData task report =
      formatAllFailed task
        (report.step_results.map
          (fun r => FailedStepEntry.mk r.step_id r.action r.error)) := by
  have hfilter :
      report.step_results.filter (fun r => !r.success) =
        report.step_results :=
    List.filter_eq_self.mpr (fun r hr => by simp [hall r hr])
  have hsucc : report.step_results.filter (fun r => r.success) = [] :=
    List.filter_eq_nil_iff.mpr (fun r hr => by simp [hall r hr])
  unfold verifyAndFormat
  rw [if_neg hne]
  simp [hfilter, hsucc]

theorem formatFailureNote_sub (failed : List FailedStepEntry)
    (e : FailedStepEntry) (he : e ∈ failed) :
    strSub ("- " ++ e.action ++ ": " ++ renderOptStr e.error)
      (formatFailureNote failed) = true := by
  have hne : failed ≠ [] := List.ne_nil_of_mem he
  unfold formatFailureNote
  rw [if_neg hne]
  exact strSub_mem_pyJoin "\n" _ _
    (List.mem_cons_of_mem _ (List.mem_map_of_mem _ he))

theorem basicFormat_answer (renderData : String → Option Payload → String)
    (task : String) (stepResults : List StepResult)
    (failed : List FailedStepEntry) (hf : failed ≠ []) :
    ∃ a, (basicFormat renderData task stepResults failed).formatted_answer
        = some a ∧
      a ≠ "" ∧ strSub (formatFailureNote failed) a = true := by
  unfold basicFormat
  dsimp only
  rw [if_neg hf]
  refine ⟨_, rfl, ?_, ?_⟩
  · refine strSub_ne_empty ("**Results for:** " ++ task ++ "\n") _
      (strSub_mem_pyJoin "\n" _ _
        (List.mem_append_left _ (List.mem_append_left _
          (List.mem_cons_self _ _)))) ?_
    rw [string_data_ne_nil_iff]
    rw [String.data_append, String.data_append]
    simp [show ("**Results for:** " : String).data ≠ [] from by decide]
  · exact strSub_mem_pyJoin "\n" _ _
      (List.mem_append_right _ (List.mem_cons_self _ _))

/-- C7: when step results exist and every step failed, verification is the
deterministic all-failed summary: `is_complete` is false, the fixed
non-empty suggestion list is returned, the formatted answer contains, for
each failed step, the line naming its id and error, and the result does not
depend on the text-generation capability or the payload renderer (neither is
invoked). -/
theorem c7_all_failed (llm : LLMOutcome)
    (renderData : String → Option Payload → String) (task : String)
    (report : ExecutionReport)
    (hne : report.step_results ≠ [])
    (hall : ∀ r ∈ report.step_results, r.success = false) :
    (verifyAndFormat llm renderData task report).is_complete = false ∧
    (verifyAndFormat llm renderData task report).suggestions =
      some ["Verify API keys are configured", "Check internet connection",
            "Try a simpler query"] ∧
    (∃ a, (verifyAndFormat llm renderData task report).formatted_answer
        = some a ∧
      ∀ r ∈ report.step_results,
        strSub ("- Step " ++ r.step_id ++ ": " ++ renderOptStr r.error) a
          = true) ∧
    ∀ llm' renderData', verifyAndFormat llm' renderData' task report =
      verifyAndFormat llm renderData task report := by
  rw [verifyAndFormat_all_failed llm renderData task report hne hall]
  refine ⟨rfl, rfl, ⟨_, rfl, ?_⟩, fun llm' rd' => ?_⟩
  · intro r hr
    have hmem :
        allFailedLine (FailedStepEntry.mk r.step_id r.action r.error) ∈
          (report.step_results.map
            (fun x => FailedStepEntry.mk x.step_id x.action x.error)).map
            allFailedLine :=
      List.mem_map_of_mem _ (List.mem_map_of_mem _ hr)
    have h0 := strSub_mem_pyJoin "\n" _ _ hmem
    exact strSub_append_right _ _ _ (strSub_append_right _ _ _
      (strSub_append_right _ _ _ (strSub_append_right _ _ _
        (strSub_append_right _ _ _ (strSub_append_left _ _ _ h0)))))
  · rw [verifyAndFormat_all_failed llm' rd' task report hne hall]

/-- A failed step result, as produced by the executor for a raising
handler. -/
def sampleFailResult : StepResult :=
  ⟨"1", "weather", "get_current_weather", "get weather", false, none,
    some "boom", 3⟩

/-- A successful step result. -/
def sampleSuccessResult : StepResult :=
  ⟨"2", "github", "search_repositories", "search repos", true,
    some .pother, none, 1⟩

/-- A report in which the only step failed. -/
def sampleReportAllFailed : ExecutionReport :=
  ⟨planWeather, [sampleFailResult], [], 1, 0, 1, none, 7⟩

/-- A report with one successful and one failed step. -/
def sampleReportMixed : ExecutionReport :=
  ⟨planWeather, [sampleSuccessResult, sampleFailResult], ["github"], 2, 1, 1,
    none, 7⟩

/-- A payload renderer returning the empty string for every payload. -/
def emptyRender : String → Option Payload → String := fun _ _ => ""

/-- An LLM outcome that returns an empty formatted answer. -/
def emptyAnswerLLM : LLMOutcome := .returns ⟨some "", true, none, none⟩

/-- C7, witness: the all-failed path on a concrete one-failure report. -/
theorem c7_witness :
    sampleReportAllFailed.step_results ≠ [] ∧
    (∀ r ∈ sampleReportAllFailed.step_results, r.success = false) ∧
    ((verifyAndFormat .fails emptyRender "task"
        sampleReportAllFailed).is_complete = false ∧
    (verifyAndFormat .fails emptyRender "task"
        sampleReportAllFailed).suggestions =
      some ["Verify API keys are configured", "Check internet connection",
            "Try a simpler query"] ∧
    (∃ a, (verifyAndFormat .fails emptyRender "task"
        sampleReportAllFailed).formatted_answer = some a ∧
      ∀ r ∈ sampleReportAllFailed.step_results,
        strSub ("- Step " ++ r.step_id ++ ": " ++ renderOptStr r.error) a
          = true) ∧
    ∀ llm' renderData', verifyAndFormat llm' renderData' "task"
        sampleReportAllFailed =
      verifyAndFormat .fails emptyRender "task" sampleReportAllFailed) :=
  ⟨by decide, by decide,
    c7_all_failed .fails emptyRender "task" sampleReportAllFailed
      (by decide) (by decide)⟩

/-- C8, counterexample: with one successful and one failed step, when the
text-generation path returns an empty `formatted_answer`, the verifier
returns it unchanged — empty, with no partial-failure note appended — so
the claimed unconditional non-emptiness and note-appending fail. -/
theorem c8_counterexample :
    (∃ r ∈ sampleReportMixed.step_results, r.success = true) ∧
    (∃ r ∈ sampleReportMixed.step_results, r.success = false) ∧
    (verifyAndFormat emptyAnswerLLM emptyRender "task"
      sampleReportMixed).formatted_answer = some "" := by
  decide

/-- C8 (amended): with at least one successful and at least one failed step,
whenever the answer is produced by the deterministic fallback path, or by
the text-generation path returning a non-empty `formatted_answer`, the
returned `formatted_answer` is non-empty and contains, for each failed step,
the appended note line naming its action and error; when the
text-generation path returns an empty or missing answer, it is passed
through without a note. -/
theorem c8_failure_note (llm : LLMOutcome)
    (renderData : String → Option Payload → String) (task : String)
    (report : ExecutionReport)
    (hs : ∃ r ∈ report.step_results, r.success = true)
    (hf : ∃ r ∈ report.step_results, r.success = false)
    (hllm : llm = .fails ∨
      ∃ v s, llm = .returns v ∧ v.formatted_answer = some s ∧ s ≠ "") :
    ∃ a, (verifyAndFormat llm renderData task report).formatted_answer
        = some a ∧
      a ≠ "" ∧
      ∀ r ∈ report.step_results, r.success = false →
        strSub ("- " ++ r.action ++ ": " ++ renderOptStr r.error) a
          = true := by
  obtain ⟨rs, hrs, hrs2⟩ := hs
  obtain ⟨rf, hrf, hrf2⟩ := hf
  have hne : report.step_results ≠ [] := List.ne_nil_of_mem hrs
  have hsuccne : report.step_results.filter (fun r => r.success) ≠ [] :=
    List.ne_nil_of_mem (List.mem_filter.mpr ⟨hrs, by simp [hrs2]⟩)
  have hfailmem :
      FailedStepEntry.mk rf.step_id rf.action rf.error ∈
        (report.step_results.filter (fun r => !r.success)).map
          (fun r => FailedStepEntry.mk r.step_id r.action r.error) :=
    List.mem_map_of_mem _ (List.mem_filter.mpr ⟨hrf, by simp [hrf2]⟩)
  have hfailedne :
      (report.step_results.filter (fun r => !r.success)).map
        (fun r => FailedStepEntry.mk r.step_id r.action r.error) ≠ [] :=
    List.ne_nil_of_mem hfailmem
  have hkey : ∀ r ∈ report.step_results, r.success = false →
      strSub ("- " ++ r.action ++ ": " ++ renderOptStr r.error)
        (formatFailureNote
          ((report.step_results.filter (fun r => !r.success)).map
            (fun r => FailedStepEntry.mk r.step_id r.action r.error)))
        = true := by
    intro r hr hfail
    exact formatFailureNote_sub _ (FailedStepEntry.mk r.step_id r.action r.error)
      (List.mem_map_of_mem _ (List.mem_filter.mpr ⟨hr, by simp [hfail]⟩))
  unfold verifyAndFormat
  rw [if_neg hne]
  simp only [if_neg hsuccne]
  rcases hllm with rfl | ⟨v, s, rfl, hv, hsne⟩
  · obtain ⟨a, ha, hane, hnote⟩ := basicFormat_answer renderData task
      report.step_results
      ((report.step_results.filter (fun r => !r.success)).map
        (fun r => FailedStepEntry.mk r.step_id r.action r.error)) hfailedne
    exact ⟨a, ha, hane, fun r hr hfail =>
      strSub_trans _ _ _ (hkey r hr hfail) hnote⟩
  · dsimp only
    rw [hv]
    have htr : truthyStr (some s) = true := by simp [truthyStr, hsne]
    rw [if_pos ⟨hfailedne, htr⟩, Option.getD_some]
    refine ⟨_, rfl, ?_, ?_⟩
    · rw [string_data_ne_nil_iff, String.data_append]
      have hsd := (string_data_ne_nil_iff s).mp hsne
      simp [hsd]
    · intro r hr hfail
      exact strSub_append_left _ _ _ (hkey r hr hfail)

/-- C8, witness: the amended statement on a concrete mixed report via the
deterministic fallback path. -/
theorem c8_witness :
    (∃ r ∈ sampleReportMixed.step_results, r.success = true) ∧
    (∃ r ∈ sampleReportMixed.step_results, r.success = false) ∧
    (∃ a, (verifyAndFormat .fails emptyRender "task"
        sampleReportMixed).formatted_answer = some a ∧
      a ≠ "" ∧
      ∀ r ∈ sampleReportMixed.step_results, r.success = false →
        strSub ("- " ++ r.action ++ ": " ++ renderOptStr r.error) a
          = true) :=
  ⟨by decide, by decide,
    c8_failure_note .fails emptyRender "task" sampleReportMixed
      (by decide) (by decide) (Or.inl rfl)⟩

end AIOps
